import Mathlib

/-!
Verification development for the DSE-Math practice app (`app.py`).

The app is a single-file Streamlit client around a generative-text API.
We shallowly embed the pieces the specification talks about:

* Python's `json.loads` on the relevant fragment of its grammar
  (objects, arrays, strings with escapes, numbers, the literals
  `true`/`false`/`null` and the CPython extensions `NaN`/`Infinity`/
  `-Infinity`), returning `Option Json` where `none` models
  `json.JSONDecodeError`;
* the response cleaning in `call_gemini` (`str.strip`, the
  `startswith("```")` guard and the two `re.sub` fence-stripping calls);
* the per-call user message built in `call_gemini`;
* the Streamlit session state (`STATE_DEFAULTS`) and the three
  button handlers (generate / hint / solution) as a step function on
  that state.

Strings from the source are embedded as `List Char`.  Python `None` and
JSON `null` are the same runtime value in the source, so session-state
fields that start out as `None` are embedded as `Json` with initial
value `Json.null`.
-/

namespace DseMath

/-- Python object values produced by `json.loads`: `dict`, `list`, `str`,
`int`/`float` (kept as their source literal text, since no code in the
app inspects numeric values), `bool` and `None`.  Object members are
kept in parse order; Python's `dict` gives later duplicates priority,
which `lookupLast` below reproduces. -/
inductive Json where
  | null : Json
  | bool (b : Bool) : Json
  | num (lit : List Char) : Json
  | str (s : List Char) : Json
  | arr (elems : List Json) : Json
  | obj (members : List (List Char × Json)) : Json

/-- JSON whitespace as accepted by Python's `json` module (` `, TAB, LF, CR). -/
def isJsonSpace (c : Char) : Bool :=
  c == ' ' || c == '\t' || c == '\n' || c == '\r'

/-- ASCII whitespace stripped by Python's `str.strip()` and matched by the
regex class `\s`; on the ASCII payloads relevant here both coincide with
this six-character class. -/
def isAsciiSpace (c : Char) : Bool :=
  c == ' ' || c == '\t' || c == '\n' || c == '\r' || c == '\x0b' || c == '\x0c'

/-- Drop matching characters from the end of a list. -/
def rdropWhile (p : Char → Bool) (cs : List Char) : List Char :=
  (cs.reverse.dropWhile p).reverse

/-- Embedding of Python's `str.strip()` (no argument): remove leading and
trailing whitespace. -/
def pyStrip (cs : List Char) : List Char :=
  rdropWhile isAsciiSpace (cs.dropWhile isAsciiSpace)

/-- The left brace character, kept out of literals for hygiene. -/
def lbrace : Char := Char.ofNat 123

/-- The right brace character. -/
def rbrace : Char := Char.ofNat 125

/-- Value of a hexadecimal digit, as accepted in `\uXXXX` escapes. -/
def hexVal (c : Char) : Option Nat :=
  if c.isDigit then some (c.toNat - 48)
  else if 'a' ≤ c && c ≤ 'f' then some (c.toNat - 87)
  else if 'A' ≤ c && c ≤ 'F' then some (c.toNat - 55)
  else none

/-- Single-character string escapes accepted by Python's JSON scanner
(besides `\uXXXX`). -/
def escChar (e : Char) : Option Char :=
  if e == '"' then some '"'
  else if e == '\\' then some '\\'
  else if e == '/' then some '/'
  else if e == 'b' then some (Char.ofNat 8)
  else if e == 'f' then some (Char.ofNat 12)
  else if e == 'n' then some '\n'
  else if e == 'r' then some '\r'
  else if e == 't' then some '\t'
  else none

/-- Prepend a character to the string being decoded, propagating failure. -/
def consCont (c : Char) : Option (List Char × List Char) → Option (List Char × List Char)
  | some (s, rest) => some (c :: s, rest)
  | none => none

/-- Embedding of Python's strict JSON string scanner (`scanstring`), to be
applied after the opening quote: returns the decoded characters and the
input remaining after the closing quote.  Unescaped control characters
below `0x20` are rejected (strict mode); surrogate pairs in `\u` escapes
are combined exactly as in CPython's decoder.  A lone surrogate is kept
by CPython inside the `str`; since a Lean `Char` cannot hold a lone
surrogate, `Char.ofNat` maps it to `NUL` — no claim depends on lone
surrogates.  The fuel argument only serves termination; `loads` passes
enough for any input. -/
def parseStr : Nat → List Char → Option (List Char × List Char)
  | 0, _ => none
  | _ + 1, [] => none
  | f + 1, c :: rest =>
    if c == '"' then some ([], rest)
    else if c == '\\' then
      match rest with
      | [] => none
      | e :: rest2 =>
        if e == 'u' then
          match rest2 with
          | a :: b :: c2 :: d :: rest3 =>
            match hexVal a, hexVal b, hexVal c2, hexVal d with
            | some ha, some hb, some hc, some hd =>
              let n := ((ha * 16 + hb) * 16 + hc) * 16 + hd
              if 0xD800 ≤ n && n < 0xDC00 then
                match rest3 with
                | x :: y :: a2 :: b2 :: c3 :: d2 :: rest4 =>
                  if x == '\\' && y == 'u' then
                    match hexVal a2, hexVal b2, hexVal c3, hexVal d2 with
                    | some he, some hf2, some hg, some hh =>
                      let m := ((he * 16 + hf2) * 16 + hg) * 16 + hh
                      if 0xDC00 ≤ m && m < 0xE000 then
                        consCont (Char.ofNat (0x10000 + (n - 0xD800) * 1024 + (m - 0xDC00)))
                          (parseStr f rest4)
                      else consCont (Char.ofNat n) (parseStr f rest3)
                    | _, _, _, _ => none
                  else consCont (Char.ofNat n) (parseStr f rest3)
                | x :: y :: rest5 =>
                  if x == '\\' && y == 'u' then none
                  else consCont (Char.ofNat n) (parseStr f (x :: y :: rest5))
                | rest5 => consCont (Char.ofNat n) (parseStr f rest5)
              else consCont (Char.ofNat n) (parseStr f rest3)
            | _, _, _, _ => none
          | _ => none
        else
          match escChar e with
          | some ec => consCont ec (parseStr f rest2)
          | none => none
    else if c.toNat < 32 then none
    else consCont c (parseStr f rest)

/-- Embedding of the number token match in Python's JSON scanner
(regex `(-?(?:0|[1-9]\d*))(\.\d+)?([eE][-+]?\d+)?`): returns the matched
literal and the remaining input, or `none` when no number starts here. -/
def parseNumTok (cs : List Char) : Option (List Char × List Char) :=
  let signAndRest : List Char × List Char :=
    match cs with
    | c :: r => if c == '-' then (['-'], r) else ([], cs)
    | [] => ([], cs)
  match signAndRest with
  | (sign, cs1) =>
    match cs1 with
    | [] => none
    | c :: r =>
      let intAndRest : Option (List Char × List Char) :=
        if c == '0' then some (['0'], r)
        else if c.isDigit then some (c :: r.takeWhile Char.isDigit, r.dropWhile Char.isDigit)
        else none
      match intAndRest with
      | none => none
      | some (intPart, restInt) =>
        let fracAndRest : List Char × List Char :=
          match restInt with
          | d :: r2 =>
            if d == '.' then
              let ds := r2.takeWhile Char.isDigit
              if ds.isEmpty then ([], restInt)
              else ('.' :: ds, r2.dropWhile Char.isDigit)
            else ([], restInt)
          | [] => ([], restInt)
        match fracAndRest with
        | (fracPart, restFrac) =>
          let expAndRest : List Char × List Char :=
            match restFrac with
            | e :: r3 =>
              if e == 'e' || e == 'E' then
                let signedTail : List Char × List Char :=
                  match r3 with
                  | s2 :: r4 => if s2 == '+' || s2 == '-' then ([s2], r4) else ([], r3)
                  | [] => ([], r3)
                match signedTail with
                | (esign, r4) =>
                  let ds := r4.takeWhile Char.isDigit
                  if ds.isEmpty then ([], restFrac)
                  else (e :: (esign ++ ds), r4.dropWhile Char.isDigit)
              else ([], restFrac)
            | [] => ([], restFrac)
          match expAndRest with
          | (expPart, restExp) =>
            some (sign ++ intPart ++ fracPart ++ expPart, restExp)

mutual

/-- Embedding of Python's JSON value scanner (`scan_once`): parses one value
starting at the head of the input (whitespace already skipped by the
caller) and returns it with the remaining input.  `none` models
`json.JSONDecodeError`.  Fuel only serves termination. -/
def parseVal : Nat → List Char → Option (Json × List Char)
  | 0, _ => none
  | _ + 1, [] => none
  | f + 1, c :: rest =>
    if c == lbrace then
      let cs1 := List.dropWhile isJsonSpace rest
      match cs1 with
      | d :: r1 => if d == rbrace then some (.obj [], r1) else parseObjBody f cs1 []
      | [] => none
    else if c == '[' then
      let cs1 := List.dropWhile isJsonSpace rest
      match cs1 with
      | d :: r1 => if d == ']' then some (.arr [], r1) else parseArrBody f cs1 []
      | [] => none
    else if c == '"' then
      match parseStr f rest with
      | some (s, r) => some (.str s, r)
      | none => none
    else if c == 't' then
      if "true".data.isPrefixOf (c :: rest) then some (.bool true, (c :: rest).drop 4) else none
    else if c == 'f' then
      if "false".data.isPrefixOf (c :: rest) then some (.bool false, (c :: rest).drop 5) else none
    else if c == 'n' then
      if "null".data.isPrefixOf (c :: rest) then some (.null, (c :: rest).drop 4) else none
    else if c == 'N' then
      if "NaN".data.isPrefixOf (c :: rest) then some (.num "NaN".data, (c :: rest).drop 3) else none
    else if c == 'I' then
      if "Infinity".data.isPrefixOf (c :: rest) then
        some (.num "Infinity".data, (c :: rest).drop 8)
      else none
    else if c == '-' then
      if "-Infinity".data.isPrefixOf (c :: rest) then
        some (.num "-Infinity".data, (c :: rest).drop 9)
      else
        match parseNumTok (c :: rest) with
        | some (lit, r) => some (.num lit, r)
        | none => none
    else
      match parseNumTok (c :: rest) with
      | some (lit, r) => some (.num lit, r)
      | none => none

/-- Embedding of Python's `JSONObject` member loop: called after `{` with
leading whitespace skipped and at least one member expected (the empty
object is handled in `parseVal`).  Members are accumulated in parse
order; a trailing comma or a non-string key is an error, as in CPython. -/
def parseObjBody : Nat → List Char → List (List Char × Json) → Option (Json × List Char)
  | 0, _, _ => none
  | _ + 1, [], _ => none
  | f + 1, c :: rest, acc =>
    if c == '"' then
      match parseStr f rest with
      | some (key, r1) =>
        match List.dropWhile isJsonSpace r1 with
        | d :: r2 =>
          if d == ':' then
            match parseVal f (List.dropWhile isJsonSpace r2) with
            | some (v, r3) =>
              match List.dropWhile isJsonSpace r3 with
              | e :: r4 =>
                if e == ',' then
                  parseObjBody f (List.dropWhile isJsonSpace r4) (acc ++ [(key, v)])
                else if e == rbrace then some (.obj (acc ++ [(key, v)]), r4)
                else none
              | [] => none
            | none => none
          else none
        | [] => none
      | none => none
    else none

/-- Embedding of Python's `JSONArray` element loop: called after `[` with
leading whitespace skipped and at least one element expected. -/
def parseArrBody : Nat → List Char → List Json → Option (Json × List Char)
  | 0, _, _ => none
  | f + 1, cs, acc =>
    match parseVal f cs with
    | some (v, r1) =>
      match List.dropWhile isJsonSpace r1 with
      | e :: r2 =>
        if e == ',' then parseArrBody f (List.dropWhile isJsonSpace r2) (acc ++ [v])
        else if e == ']' then some (.arr (acc ++ [v]), r2)
        else none
      | [] => none
    | none => none

end

/-- Embedding of Python's `json.loads` on a string: skip leading
whitespace, scan one value, then require only whitespace to remain
("Extra data" otherwise).  `none` models `json.JSONDecodeError`.  The
fuel `2 * length + 8` exceeds the recursion depth reachable on any
input, since every second fuel decrement consumes at least one input
character. -/
def loads (cs : List Char) : Option Json :=
  match parseVal (2 * cs.length + 8) (List.dropWhile isJsonSpace cs) with
  | some (j, rest) => if List.dropWhile isJsonSpace rest = [] then some j else none
  | none => none

/-- The backtick character, kept out of literals for hygiene. -/
def btick : Char := Char.ofNat 96

/-- The three-backtick fence marker tested by `raw_text.startswith("```")`. -/
def fenceMarker : List Char := [btick, btick, btick]

/-- Embedding of `re.sub(r"^```(?:json)?\s*\n?", "", raw_text)`: the pattern
is anchored at the start, so at most one match is removed; greedy matching
takes the three backticks, then the literal tag `json` when present, then
all following whitespace (the trailing `\n?` is subsumed by `\s*`). -/
def stripLeadFence (cs : List Char) : List Char :=
  if fenceMarker.isPrefixOf cs then
    let r1 := cs.drop 3
    let r2 := if "json".data.isPrefixOf r1 then r1.drop 4 else r1
    r2.dropWhile isAsciiSpace
  else cs

/-- Embedding of `re.sub(r"\n?\s*```$", "", raw_text)`: without `MULTILINE`,
`$` matches at the end of the string or just before a final newline, so the
single possible match is a whitespace run followed by the closing fence
there; the leading `\n?` is subsumed by `\s*`. -/
def stripTrailFence (cs : List Char) : List Char :=
  let r := cs.reverse
  if fenceMarker.isPrefixOf r then
    ((r.drop 3).dropWhile isAsciiSpace).reverse
  else if ('\n' :: fenceMarker).isPrefixOf r then
    ('\n' :: ((r.drop 4).dropWhile isAsciiSpace)).reverse
  else cs

/-- Embedding of the response cleaning in `call_gemini` (lines 198-204 of
`app.py`): `raw_text = response.text.strip()`, then, only when the result
starts with three backticks, the two `re.sub` fence-stripping calls. -/
def cleanResponse (text : List Char) : List Char :=
  let raw := pyStrip text
  if fenceMarker.isPrefixOf raw then stripTrailFence (stripLeadFence raw) else raw

/-- Exceptions `call_gemini` can raise, as seen by the generate handler:
any failure of the underlying service call (`model.generate_content` /
`response.text`), or `json.JSONDecodeError` from `json.loads`. -/
inductive CallError where
  | transport (msg : String) : CallError
  | jsonDecode : CallError

/-- Embedding of `call_gemini` from the service response onward: the
outcome of the request is either a failure with a message or the raw
response text, which is stripped, fence-cleaned and given to
`json.loads`. -/
def callGemini (svc : Except String (List Char)) : Except CallError Json :=
  match svc with
  | .error m => .error (.transport m)
  | .ok text =>
    match loads (cleanResponse text) with
    | some j => .ok j
    | none => .error .jsonDecode

/-- Embedding of the Streamlit session state keys of `STATE_DEFAULTS`.
Python `None` and JSON `null` are the same value, so the three content
fields are plain `Json` with `Json.null` standing for `None`. -/
structure SessionState where
  current_question : Json
  current_hint : Json
  current_solution : Json
  show_hint : Bool
  show_solution : Bool
  display_section : String
  display_topic : String

/-- The session state after the `STATE_DEFAULTS` initialization loop. -/
def initialState : SessionState :=
  { current_question := Json.null
    current_hint := Json.null
    current_solution := Json.null
    show_hint := false
    show_solution := false
    display_section := ""
    display_topic := "" }

/-- Fallback stored for `question` when the key is absent
(`data.get("question", "（題目生成失敗，請重試）")`). -/
def questionFallback : Json := .str "（題目生成失敗，請重試）".data

/-- Fallback stored for `hint` when the key is absent. -/
def hintFallback : Json := .str "（提示未生成）".data

/-- Fallback stored for `solution` when the key is absent. -/
def solutionFallback : Json := .str "（詳解未生成）".data

/-- Value of key `k` in a parsed JSON object, as Python's `dict` sees it:
members were inserted in parse order with `pairs[key] = value`, so a
duplicate key holds the value of its last occurrence. -/
def lookupLast (kvs : List (List Char × Json)) (k : List Char) : Option Json :=
  match kvs.reverse.find? (fun p => p.1 == k) with
  | some p => some p.2
  | none => none

/-- Embedding of Python's `dict.get(key, default)` on a parsed object. -/
def pyDictGet (kvs : List (List Char × Json)) (k : List Char) (dflt : Json) : Json :=
  match lookupLast kvs k with
  | some v => v
  | none => dflt

/-- Exceptions reaching the generate handler's generic `except Exception`
branch: an `AttributeError` because the parsed value is not a `dict` and
has no `.get`, or any transport-level failure. -/
inductive OtherExc where
  | attributeNoGet : OtherExc
  | transport (msg : String) : OtherExc

/-- What the generate handler displays after running: normal completion,
the dedicated `except json.JSONDecodeError` message, or the generic
`except Exception` message. -/
inductive Outcome where
  | success : Outcome
  | parseErrorShown : Outcome
  | otherErrorShown (e : OtherExc) : Outcome

/-- Embedding of the generate-button handler (lines 247-272 of `app.py`):
on a parsed `dict`, the three fields are stored via `.get` with their
fallbacks, both reveal flags are reset and the current section/topic are
recorded; `json.JSONDecodeError` and any other exception leave the
session state untouched and show an error.  When the parsed value is not
a `dict`, the first `.get` raises `AttributeError` before any assignment,
so the state is also untouched. -/
def generateStep (st : SessionState) (sect topic : String)
    (svc : Except String (List Char)) : SessionState × Outcome :=
  match callGemini svc with
  | .error (.transport m) => (st, .otherErrorShown (.transport m))
  | .error .jsonDecode => (st, .parseErrorShown)
  | .ok (Json.obj kvs) =>
    ({ current_question := pyDictGet kvs "question".data questionFallback
       current_hint := pyDictGet kvs "hint".data hintFallback
       current_solution := pyDictGet kvs "solution".data solutionFallback
       show_hint := false
       show_solution := false
       display_section := sect
       display_topic := topic }, .success)
  | .ok _ => (st, .otherErrorShown .attributeNoGet)

/-- Test for Python `None` (`is None` / `is not None` in `app.py`). -/
def Json.isNull : Json → Bool
  | .null => true
  | _ => false

/-- Embedding of the hint button (lines 320-322): it is rendered, and can
fire, only inside the `current_question is not None` branch of the main
page; firing sets `show_hint` to `True`. -/
def revealHintStep (st : SessionState) : SessionState :=
  if st.current_question.isNull then st else { st with show_hint := true }

/-- Embedding of the solution button (lines 324-326). -/
def revealSolutionStep (st : SessionState) : SessionState :=
  if st.current_question.isNull then st else { st with show_solution := true }

/-- The three user triggers the interaction layer wires to state
transitions.  A generate trigger carries the sidebar selection and the
outcome of the external service call. -/
inductive Trigger where
  | generate (sect topic : String) (svc : Except String (List Char)) : Trigger
  | revealHint : Trigger
  | revealSolution : Trigger

/-- One step of the interaction state machine. -/
def step (st : SessionState) : Trigger → SessionState × Outcome
  | .generate sect topic svc => generateStep st sect topic svc
  | .revealHint => (revealHintStep st, .success)
  | .revealSolution => (revealSolutionStep st, .success)

/-- Session states reachable from the initial state by any trigger
sequence. -/
inductive Reachable : SessionState → Prop
  | init : Reachable initialState
  | next (st : SessionState) (t : Trigger) : Reachable st → Reachable (step st t).1

/-- The sidebar section options (`SECTIONS` in `app.py`). -/
def SECTIONS : List String :=
  ["甲部(一) Section A1", "甲部(二) Section A2", "乙部 Section B"]

/-- The sidebar topic options (`TOPICS` in `app.py`). -/
def TOPICS : List String :=
  ["基礎代數與百分數", "幾何與坐標 (Geometry)", "統計學 (Statistics)", "多項式與變分",
   "圓的性質", "等差與等比數列 (AS/GS)", "三角學 (2D/3D)", "概率 (Probability)"]

/-- Embedding of the per-call `user_message` f-string built in
`call_gemini` (lines 191-195 of `app.py`). -/
def buildUserMessage (sect topic : String) : String :=
  "請出一道全新的 DSE 數學練習題：\n- 試卷部份 (Section)：" ++ sect ++
    "\n- 課題 (Topic)：" ++ topic ++ "\n"

/-- Test for `dict`-ness of a parsed value: only a JSON object supports
the `.get` calls in the generate handler. -/
def Json.isObj : Json → Bool
  | .obj _ => true
  | _ => false

/-- Substring test on character lists (Python's `in` / `str.find`). -/
def containsSub : List Char → List Char → Bool
  | needle, [] => needle.isEmpty
  | needle, c :: rest => needle.isPrefixOf (c :: rest) || containsSub needle rest

/-- Check that the user message built for `(s, t)` mentions `s` and `t`
and no other element of `SECTIONS` or `TOPICS`. -/
def mentionsExactlyCheck (s t : String) : Bool :=
  containsSub s.data (buildUserMessage s t).data &&
  containsSub t.data (buildUserMessage s t).data &&
  (SECTIONS.all fun s2 => (s2 == s) || !(containsSub s2.data (buildUserMessage s t).data)) &&
  (TOPICS.all fun t2 => (t2 == t) || !(containsSub t2.data (buildUserMessage s t).data))

/-- The operator-facing message shown when the API key is missing
(line 84 of `app.py`). -/
def missingSecretsMsg : String := "⚠️ 系統設定中 (Missing Secrets)，請聯絡老師"

/-- Result of process startup: either the script stops with an error
before any state or widget exists, or it runs with the key and the
freshly initialized session state. -/
inductive StartupResult where
  | halted (msg : String) : StartupResult
  | running (apiKey : String) (st : SessionState) : StartupResult

/-- Embedding of lines 80-102 of `app.py`: `st.secrets["GEMINI_API_KEY"]`
raising `KeyError` (key absent) or `FileNotFoundError` (no secrets file)
is modeled as an absent `Option`; then `st.error` plus `st.stop()` end
the script before the session-state initialization loop runs, so a
halted startup carries no session state.  With the key present the
script continues and initializes `STATE_DEFAULTS`. -/
def startup (secrets : Option String) : StartupResult :=
  match secrets with
  | none => .halted missingSecretsMsg
  | some k => .running k initialState

/-- The current result was replaced: at least one of the three content
fields differs from the previous state. -/
def resultReplaced (st stNew : SessionState) : Prop :=
  stNew.current_question ≠ st.current_question ∨
  stNew.current_hint ≠ st.current_hint ∨
  stNew.current_solution ≠ st.current_solution

/-- The three content fields are all `None` or all non-`None`. -/
def allNoneOrAllSome (st : SessionState) : Prop :=
  (st.current_question = Json.null ∧ st.current_hint = Json.null ∧
    st.current_solution = Json.null) ∨
  (st.current_question ≠ Json.null ∧ st.current_hint ≠ Json.null ∧
    st.current_solution ≠ Json.null)

/-- A generate trigger whose successfully parsed object would store no
explicit JSON `null` into any of the three fields (in particular, any
trigger whose call fails, and any non-generate trigger). -/
def goodTrigger : Trigger → Prop
  | .generate _ _ (.ok raw) =>
    ∀ kvs, loads (cleanResponse raw) = some (Json.obj kvs) →
      (lookupLast kvs "question".data).getD questionFallback ≠ Json.null ∧
      (lookupLast kvs "hint".data).getD hintFallback ≠ Json.null ∧
      (lookupLast kvs "solution".data).getD solutionFallback ≠ Json.null
  | _ => True

/-- Session states reachable when the service never returns an explicit
JSON `null` for a present `question`/`hint`/`solution` key. -/
inductive ReachableGood : SessionState → Prop
  | init : ReachableGood initialState
  | next (st : SessionState) (t : Trigger) :
      ReachableGood st → goodTrigger t → ReachableGood (step st t).1

/-- A service response whose object carries an explicit `null` for
`question`: `dict.get` returns that `None` rather than the fallback. -/
def nullFieldResponse : List Char :=
  "\x7b\"question\": null, \"hint\": \"h\", \"solution\": \"s\"\x7d".data

/-- The session state after one successful generate on
`nullFieldResponse`. -/
def nullFieldState : SessionState :=
  (step initialState
    (Trigger.generate "甲部(一) Section A1" "圓的性質" (Except.ok nullFieldResponse))).1

/-- Embedding of `SYSTEM_PROMPT` (lines 127-166 of `app.py`), the fixed
system instruction sent with every request. -/
def SYSTEM_PROMPT : String :=
  "你是一位經驗豐富的香港中學文憑試 (HKDSE) 數學科出題老師。\n" ++
  "請根據使用者選擇的「試卷部份 (Section)」和「課題 (Topic)」出一道全新的數學練習題。\n" ++
  "\n" ++
  "■ 難度與題型規則：\n" ++
  "\n" ++
  "1. 若選「甲部(一) Section A1」：\n" ++
  "   - 難度：基礎。題目簡短，步驟少。\n" ++
  "   - 常見題型：簡易百分數運算、基礎代數化簡 / 方程、\n" ++
  "     簡易坐標幾何（距離 / 斜率 / 中點）、基礎統計（平均值 / 中位數 / 眾數）。\n" ++
  "   - 配分：約 3–4 分。\n" ++
  "\n" ++
  "2. 若選「甲部(二) Section A2」：\n" ++
  "   - 難度：進階。需要較多步驟或概念結合。\n" ++
  "   - 常見題型：多項式除法與因式分解、變分 (variation)、\n" ++
  "     圓的幾何性質（圓心角 / 弧 / 切線）、對數 (logarithm)、圖像變換 (transformation)。\n" ++
  "   - 配分：約 5–7 分。\n" ++
  "\n" ++
  "3. 若選「乙部 Section B」：\n" ++
  "   - 難度：高階 / 複雜。需要綜合應用多個概念。\n" ++
  "   - 常見題型：3D 三角學（角度 / 最短距離）、等差等比數列與級數 (AS/GS)、\n" ++
  "     複雜概率（排列組合 nCr / nPr、條件概率）、圓的方程與切線。\n" ++
  "   - 配分：約 10–12 分。必須生成包含 (a)、(b) 甚至 (c) 子題的結構。\n" ++
  "\n" ++
  "■ 輸出格式（嚴格 JSON）：\n" ++
  "\n" ++
  "回傳一個 JSON 物件，包含以下三個欄位：\n" ++
  "\x7b\n" ++
  "  \"question\": \"題目內容\",\n" ++
  "  \"hint\": \"解題提示（僅提供思考方向，不直接給出答案）\",\n" ++
  "  \"solution\": \"完整的逐步解題過程與最終答案\"\n" ++
  "\x7d\n" ++
  "\n" ++
  "■ 重要注意事項：\n" ++
  "- 全部文字使用繁體中文。\n" ++
  "- 數學公式使用 LaTeX 語法：行內公式用 $...$ 包裹，獨立公式用 $$...$$ 包裹。\n" ++
  "- 題目風格必須貼近 DSE 真實試卷用語（如「化簡」「求⋯的值」「以 surd form 表示」\n" ++
  "  「證明」「Express ... in terms of ...」等中英夾雜風格）。\n" ++
  "- 每次必須生成全新且不重複的題目，題目數值也要有變化。\n"

/-- The outbound request assembled by `call_gemini` for one generate
trigger: the fixed model/system/config parts plus the per-call user
message.  (`temperatureTenths` holds `0.9` scaled by ten to stay in
`Nat`.) -/
structure RequestPayload where
  modelName : String
  systemInstruction : String
  temperatureTenths : Nat
  responseMimeType : String
  userMessage : String

/-- Embedding of the request construction in `call_gemini`
(lines 182-195 of `app.py`). -/
def call_gemini_request (sect topic : String) : RequestPayload :=
  { modelName := "gemini-pro"
    systemInstruction := SYSTEM_PROMPT
    temperatureTenths := 9
    responseMimeType := "application/json"
    userMessage := buildUserMessage sect topic }

/-- Rewriting `pyDictGet` through `Option.getD`. -/
theorem pyDictGet_eq_getD (kvs : List (List Char × Json)) (k : List Char) (d : Json) :
    pyDictGet kvs k d = (lookupLast kvs k).getD d := by
  unfold pyDictGet
  cases lookupLast kvs k <;> rfl

/-- C2: a generate whose cleaned response text is not valid JSON takes the
dedicated `json.JSONDecodeError` branch, which reports a parse error and
leaves the entire session state exactly as it was. -/
theorem generate_parse_error_state_unchanged :
    ∀ (st : SessionState) (sect topic : String) (raw : List Char),
      loads (cleanResponse raw) = none →
      step st (Trigger.generate sect topic (Except.ok raw)) = (st, Outcome.parseErrorShown) := by
  intro st sect topic raw h
  simp [step, generateStep, callGemini, h]

/-- Witness for C2 at the garbage response `"not json"` and the initial
state. -/
theorem generate_parse_error_state_unchanged_witness :
    step initialState (Trigger.generate "甲部(一) Section A1" "圓的性質"
        (Except.ok "not json".data)) =
      (initialState, Outcome.parseErrorShown) :=
  generate_parse_error_state_unchanged initialState "甲部(一) Section A1" "圓的性質"
    "not json".data (by rfl)

/-- C9: a response whose cleaned text is valid JSON but not a JSON object
makes the first `.get` raise `AttributeError`, which is caught by the
generic `except Exception` branch (not the `json.JSONDecodeError` one),
again leaving the session state unchanged. -/
theorem generate_non_object_generic_error :
    ∀ (st : SessionState) (sect topic : String) (raw : List Char) (j : Json),
      loads (cleanResponse raw) = some j →
      j.isObj = false →
      step st (Trigger.generate sect topic (Except.ok raw)) =
        (st, Outcome.otherErrorShown OtherExc.attributeNoGet) := by
  intro st sect topic raw j h hobj
  cases j <;> simp_all [step, generateStep, callGemini, Json.isObj]

/-- Witness for C9 at the JSON-array response `"[1, 2]"`. -/
theorem generate_non_object_generic_error_witness :
    step initialState (Trigger.generate "乙部 Section B" "概率 (Probability)"
        (Except.ok "[1, 2]".data)) =
      (initialState, Outcome.otherErrorShown OtherExc.attributeNoGet) :=
  generate_non_object_generic_error initialState "乙部 Section B" "概率 (Probability)"
    "[1, 2]".data (Json.arr [Json.num "1".data, Json.num "2".data]) (by rfl) (by rfl)

/-- C3: a response parsing to a JSON object always succeeds; each of the
three fields is stored from the object when its key is present and is
the fixed placeholder exactly when the key is absent, so a missing key
never fails the call. -/
theorem generate_object_missing_keys_get_placeholders :
    ∀ (st : SessionState) (sect topic : String) (raw : List Char)
      (kvs : List (List Char × Json)),
      loads (cleanResponse raw) = some (Json.obj kvs) →
      (step st (Trigger.generate sect topic (Except.ok raw))).2 = Outcome.success ∧
      (step st (Trigger.generate sect topic (Except.ok raw))).1.current_question =
        (lookupLast kvs "question".data).getD questionFallback ∧
      (step st (Trigger.generate sect topic (Except.ok raw))).1.current_hint =
        (lookupLast kvs "hint".data).getD hintFallback ∧
      (step st (Trigger.generate sect topic (Except.ok raw))).1.current_solution =
        (lookupLast kvs "solution".data).getD solutionFallback := by
  intro st sect topic raw kvs h
  simp [step, generateStep, callGemini, h, pyDictGet_eq_getD]

/-- Witness for C3 at a response missing the `hint` key: the call succeeds,
`hint` gets its placeholder, the two present keys keep their values. -/
theorem generate_object_missing_keys_get_placeholders_witness :
    (step initialState (Trigger.generate "s" "t"
        (Except.ok "\x7b\"question\": \"q\", \"solution\": \"sol\"\x7d".data))).2 =
      Outcome.success ∧
    (step initialState (Trigger.generate "s" "t"
        (Except.ok "\x7b\"question\": \"q\", \"solution\": \"sol\"\x7d".data))).1.current_question =
      (lookupLast [("question".data, Json.str "q".data), ("solution".data, Json.str "sol".data)]
        "question".data).getD questionFallback ∧
    (step initialState (Trigger.generate "s" "t"
        (Except.ok "\x7b\"question\": \"q\", \"solution\": \"sol\"\x7d".data))).1.current_hint =
      (lookupLast [("question".data, Json.str "q".data), ("solution".data, Json.str "sol".data)]
        "hint".data).getD hintFallback ∧
    (step initialState (Trigger.generate "s" "t"
        (Except.ok "\x7b\"question\": \"q\", \"solution\": \"sol\"\x7d".data))).1.current_solution =
      (lookupLast [("question".data, Json.str "q".data), ("solution".data, Json.str "sol".data)]
        "solution".data).getD solutionFallback :=
  generate_object_missing_keys_get_placeholders initialState "s" "t"
    "\x7b\"question\": \"q\", \"solution\": \"sol\"\x7d".data
    [("question".data, Json.str "q".data), ("solution".data, Json.str "sol".data)] (by rfl)

/-- C4: a response parsing to a JSON object with all three keys present
stores exactly those three values, unaltered, resets both reveal flags
and records the selected section and topic. -/
theorem generate_object_all_keys_stored_unaltered :
    ∀ (st : SessionState) (sect topic : String) (raw : List Char)
      (kvs : List (List Char × Json)) (qv hv sv : Json),
      loads (cleanResponse raw) = some (Json.obj kvs) →
      lookupLast kvs "question".data = some qv →
      lookupLast kvs "hint".data = some hv →
      lookupLast kvs "solution".data = some sv →
      step st (Trigger.generate sect topic (Except.ok raw)) =
        ({ current_question := qv
           current_hint := hv
           current_solution := sv
           show_hint := false
           show_solution := false
           display_section := sect
           display_topic := topic }, Outcome.success) := by
  intro st sect topic raw kvs qv hv sv h hq hh hs
  simp [step, generateStep, callGemini, h, pyDictGet_eq_getD, hq, hh, hs]

/-- Witness for C4 at a complete three-key response. -/
theorem generate_object_all_keys_stored_unaltered_witness :
    step initialState (Trigger.generate "s" "t"
        (Except.ok "\x7b\"question\": \"q\", \"hint\": \"h\", \"solution\": \"sol\"\x7d".data)) =
      ({ current_question := Json.str "q".data
         current_hint := Json.str "h".data
         current_solution := Json.str "sol".data
         show_hint := false
         show_solution := false
         display_section := "s"
         display_topic := "t" }, Outcome.success) :=
  generate_object_all_keys_stored_unaltered initialState "s" "t"
    "\x7b\"question\": \"q\", \"hint\": \"h\", \"solution\": \"sol\"\x7d".data
    [("question".data, Json.str "q".data), ("hint".data, Json.str "h".data),
      ("solution".data, Json.str "sol".data)]
    (Json.str "q".data) (Json.str "h".data) (Json.str "sol".data)
    (by rfl) (by rfl) (by rfl) (by rfl)

/-- C5: a successful generate resets both reveal flags to `false`, whatever
they were before; and across every operation of the state machine, any
step that replaces one of the three content fields leaves both reveal
flags `false`. -/
theorem successful_generate_resets_reveal_flags :
    ∀ (st : SessionState) (sect topic : String) (svc : Except String (List Char)) (t : Trigger),
      ((step st (Trigger.generate sect topic svc)).2 = Outcome.success →
        (step st (Trigger.generate sect topic svc)).1.show_hint = false ∧
        (step st (Trigger.generate sect topic svc)).1.show_solution = false) ∧
      (resultReplaced st (step st t).1 →
        (step st t).1.show_hint = false ∧ (step st t).1.show_solution = false) := by
  intro st sect topic svc t
  constructor
  · intro h
    cases hc : callGemini svc with
    | error e =>
      cases e <;> simp [step, generateStep, hc] at h
    | ok j =>
      cases j <;> simp [step, generateStep, hc] at h ⊢
  · intro h
    cases t with
    | generate sect2 topic2 svc2 =>
      cases hc : callGemini svc2 with
      | error e =>
        cases e <;> simp [step, generateStep, hc, resultReplaced] at h
      | ok j =>
        cases j <;> simp [step, generateStep, hc, resultReplaced] at h ⊢
    | revealHint =>
      rcases h with h | h | h <;>
        · simp only [step, revealHintStep] at h
          split at h <;> exact absurd rfl h
    | revealSolution =>
      rcases h with h | h | h <;>
        · simp only [step, revealSolutionStep] at h
          split at h <;> exact absurd rfl h

/-- Witness for C5: a successful generate from a state with both flags set
leaves both flags clear. -/
theorem successful_generate_resets_reveal_flags_witness :
    (step { current_question := Json.str "q".data, current_hint := Json.str "h".data,
            current_solution := Json.str "s".data, show_hint := true, show_solution := true,
            display_section := "s", display_topic := "t" }
        (Trigger.generate "s" "t" (Except.ok "\x7b\x7d".data))).1.show_hint = false ∧
    (step { current_question := Json.str "q".data, current_hint := Json.str "h".data,
            current_solution := Json.str "s".data, show_hint := true, show_solution := true,
            display_section := "s", display_topic := "t" }
        (Trigger.generate "s" "t" (Except.ok "\x7b\x7d".data))).1.show_solution = false :=
  (successful_generate_resets_reveal_flags
    { current_question := Json.str "q".data, current_hint := Json.str "h".data,
      current_solution := Json.str "s".data, show_hint := true, show_solution := true,
      display_section := "s", display_topic := "t" }
    "s" "t" (Except.ok "\x7b\x7d".data) Trigger.revealHint).1 (by rfl)

/-- C7: startup halts with the operator-facing message exactly when the
API key is absent from the configuration source; a halted startup carries
no session state (the initialization loop never ran), and with the key
present startup always proceeds, so key absence is the only startup-time
failure mode. -/
theorem startup_halts_iff_key_missing :
    ∀ (secrets : Option String) (m : String),
      startup secrets = StartupResult.halted m ↔
        (secrets = none ∧ m = missingSecretsMsg) := by
  intro secrets m
  cases secrets with
  | none =>
    constructor
    · intro h
      exact ⟨rfl, (StartupResult.halted.inj h).symm⟩
    · intro h
      rw [h.2]
      rfl
  | some k =>
    constructor
    · intro h
      exact StartupResult.noConfusion h
    · intro h
      exact Option.noConfusion h.1

/-- C8: with a question present, revealing the hint and then the solution
sets both flags and leaves the three content fields and the displayed
section/topic untouched. -/
theorem reveal_hint_then_solution_preserves_result :
    ∀ st : SessionState, st.current_question.isNull = false →
      (step (step st Trigger.revealHint).1 Trigger.revealSolution).1.show_hint = true ∧
      (step (step st Trigger.revealHint).1 Trigger.revealSolution).1.show_solution = true ∧
      (step (step st Trigger.revealHint).1 Trigger.revealSolution).1.current_question =
        st.current_question ∧
      (step (step st Trigger.revealHint).1 Trigger.revealSolution).1.current_hint =
        st.current_hint ∧
      (step (step st Trigger.revealHint).1 Trigger.revealSolution).1.current_solution =
        st.current_solution ∧
      (step (step st Trigger.revealHint).1 Trigger.revealSolution).1.display_section =
        st.display_section ∧
      (step (step st Trigger.revealHint).1 Trigger.revealSolution).1.display_topic =
        st.display_topic := by
  intro st h
  simp [step, revealHintStep, revealSolutionStep, h]

/-- Witness for C8 at a populated session state. -/
theorem reveal_hint_then_solution_preserves_result_witness :
    (step (step { current_question := Json.str "q".data, current_hint := Json.str "h".data,
                  current_solution := Json.str "s".data, show_hint := false,
                  show_solution := false, display_section := "甲部(一) Section A1",
                  display_topic := "圓的性質" }
        Trigger.revealHint).1 Trigger.revealSolution).1.show_hint = true ∧
    (step (step { current_question := Json.str "q".data, current_hint := Json.str "h".data,
                  current_solution := Json.str "s".data, show_hint := false,
                  show_solution := false, display_section := "甲部(一) Section A1",
                  display_topic := "圓的性質" }
        Trigger.revealHint).1 Trigger.revealSolution).1.show_solution = true ∧
    (step (step { current_question := Json.str "q".data, current_hint := Json.str "h".data,
                  current_solution := Json.str "s".data, show_hint := false,
                  show_solution := false, display_section := "甲部(一) Section A1",
                  display_topic := "圓的性質" }
        Trigger.revealHint).1 Trigger.revealSolution).1.current_question = Json.str "q".data ∧
    (step (step { current_question := Json.str "q".data, current_hint := Json.str "h".data,
                  current_solution := Json.str "s".data, show_hint := false,
                  show_solution := false, display_section := "甲部(一) Section A1",
                  display_topic := "圓的性質" }
        Trigger.revealHint).1 Trigger.revealSolution).1.current_hint = Json.str "h".data ∧
    (step (step { current_question := Json.str "q".data, current_hint := Json.str "h".data,
                  current_solution := Json.str "s".data, show_hint := false,
                  show_solution := false, display_section := "甲部(一) Section A1",
                  display_topic := "圓的性質" }
        Trigger.revealHint).1 Trigger.revealSolution).1.current_solution = Json.str "s".data ∧
    (step (step { current_question := Json.str "q".data, current_hint := Json.str "h".data,
                  current_solution := Json.str "s".data, show_hint := false,
                  show_solution := false, display_section := "甲部(一) Section A1",
                  display_topic := "圓的性質" }
        Trigger.revealHint).1 Trigger.revealSolution).1.display_section =
      "甲部(一) Section A1" ∧
    (step (step { current_question := Json.str "q".data, current_hint := Json.str "h".data,
                  current_solution := Json.str "s".data, show_hint := false,
                  show_solution := false, display_section := "甲部(一) Section A1",
                  display_topic := "圓的性質" }
        Trigger.revealHint).1 Trigger.revealSolution).1.display_topic = "圓的性質" :=
  reveal_hint_then_solution_preserves_result
    { current_question := Json.str "q".data, current_hint := Json.str "h".data,
      current_solution := Json.str "s".data, show_hint := false, show_solution := false,
      display_section := "甲部(一) Section A1", display_topic := "圓的性質" } (by rfl)

/-- C6: over all 3 × 8 valid (section, topic) pairs, the per-call user
message of the request payload contains the chosen section and topic and
no other element of either enumeration.  (The payload's fixed system
instruction necessarily names all three sections — it states the
difficulty rule for each — so "mentions exactly" concerns the variable
part of the payload, the user message.)  `buildUserMessage` and
`call_gemini_request` are total pure functions of their arguments, so
construction is deterministic and never throws by construction. -/
theorem build_user_message_mentions_exactly :
    (SECTIONS.all fun s => TOPICS.all fun t =>
      mentionsExactlyCheck s t &&
        ((call_gemini_request s t).userMessage == buildUserMessage s t)) = true := by
  decide

/-- C10 counterexample: one successful generate on a response whose object
holds an explicit `null` for `question` reaches a session state whose
`question` is `None` while `hint` and `solution` are not — the three
fields are neither all `None` nor all non-`None`. -/
theorem reachable_partial_result_cex :
    Reachable nullFieldState ∧ ¬ allNoneOrAllSome nullFieldState := by
  constructor
  · exact Reachable.next initialState _ Reachable.init
  · intro h
    have hq : nullFieldState.current_question = Json.null := by rfl
    have hh : nullFieldState.current_hint = Json.str "h".data := by rfl
    rcases h with ⟨_, h2, _⟩ | ⟨h1, _, _⟩
    · rw [hh] at h2
      exact Json.noConfusion h2
    · exact h1 hq

/-- C10 amended: the three content fields are indeed written only together,
by a successful generate; provided no successful response stores an
explicit JSON `null` into one of the three fields, every reachable state
has `question`/`hint`/`solution` all `None` (initial state) or all
non-`None`. -/
theorem reachable_good_all_none_or_all_some :
    ∀ st : SessionState, ReachableGood st → allNoneOrAllSome st := by
  intro st h
  induction h with
  | init =>
    left
    exact ⟨rfl, rfl, rfl⟩
  | next st' t hr hgood ih =>
    cases t with
    | generate sect topic svc =>
      cases svc with
      | error m =>
        simpa [step, generateStep, callGemini] using ih
      | ok raw =>
        cases hl : loads (cleanResponse raw) with
        | none =>
          simpa [step, generateStep, callGemini, hl] using ih
        | some j =>
          cases j with
          | obj kvs =>
            have h3 := hgood kvs hl
            right
            simpa [step, generateStep, callGemini, hl, pyDictGet_eq_getD,
              allNoneOrAllSome] using h3
          | null => simpa [step, generateStep, callGemini, hl] using ih
          | bool b => simpa [step, generateStep, callGemini, hl] using ih
          | num l => simpa [step, generateStep, callGemini, hl] using ih
          | str s => simpa [step, generateStep, callGemini, hl] using ih
          | arr xs => simpa [step, generateStep, callGemini, hl] using ih
    | revealHint =>
      simp only [step]
      unfold revealHintStep
      split
      · exact ih
      · exact ih
    | revealSolution =>
      simp only [step]
      unfold revealSolutionStep
      split
      · exact ih
      · exact ih

/-- Witness for the amended C10 at the initial state. -/
theorem reachable_good_all_none_or_all_some_witness :
    allNoneOrAllSome initialState :=
  reachable_good_all_none_or_all_some initialState ReachableGood.init

/-- Dropping from the front stops at a non-matching head. -/
theorem dropWhile_cons_false {p : Char → Bool} {c : Char} (l : List Char) (h : p c = false) :
    List.dropWhile p (c :: l) = c :: l := by
  simp [List.dropWhile_cons, h]

/-- Dropping from the back stops at a non-matching last element. -/
theorem rdropWhile_concat_false {p : Char → Bool} {l : List Char} {c : Char} (h : p c = false) :
    rdropWhile p (l ++ [c]) = l ++ [c] := by
  unfold rdropWhile
  rw [List.reverse_append]
  simp [List.dropWhile_cons, h]

/-- `pyStrip` fixes a list with non-space ends. -/
theorem pyStrip_eq_self {l : List Char} (h1 : List.dropWhile isAsciiSpace l = l)
    (h2 : rdropWhile isAsciiSpace l = l) : pyStrip l = l := by
  unfold pyStrip
  rw [h1, h2]

/-- A list fixed by `dropWhile` has a non-matching head. -/
theorem head_false_of_dropWhile_fixed {p : Char → Bool} {c : Char} {l : List Char}
    (h : List.dropWhile p (c :: l) = c :: l) : p c = false := by
  have hh := List.head_dropWhile_not p (c :: l) (by rw [h]; exact List.cons_ne_nil c l)
  simp only [h, List.head_cons] at hh
  exact hh

/-- A list fixed by `rdropWhile` has a reverse fixed by `dropWhile`. -/
theorem rev_dropWhile_fixed {l : List Char} (h2 : rdropWhile isAsciiSpace l = l) :
    List.dropWhile isAsciiSpace l.reverse = l.reverse := by
  have h := congrArg List.reverse h2
  unfold rdropWhile at h
  rw [List.reverse_reverse] at h
  exact h

/-- C1 counterexample: the fence-stripping regex only recognizes the
language tag `json`, so a response fenced with the tag `python` keeps
the tag text, fails to parse, and differs from the unwrapped parse. -/
theorem fenced_other_tag_cex :
    callGemini (Except.ok "```python\n\x7b\x7d\n```".data) ≠
      callGemini (Except.ok "\x7b\x7d".data) := by
  have h1 : callGemini (Except.ok "```python\n\x7b\x7d\n```".data) =
      Except.error CallError.jsonDecode := by rfl
  have h2 : callGemini (Except.ok "\x7b\x7d".data) = Except.ok (Json.obj []) := by rfl
  rw [h1, h2]
  exact fun h => Except.noConfusion h

/-- C1 amended: for a response fenced with three backticks and either no
language tag or exactly the tag `json`, whose interior is nonempty,
free of leading/trailing whitespace and does not itself start with three
backticks, `call_gemini` strips the fence and parses the interior to the
same result as the unwrapped interior would give. -/
theorem fenced_json_tag_parses_as_unwrapped :
    ∀ (body tag : List Char),
      (tag = [] ∨ tag = "json".data) →
      body ≠ [] →
      List.dropWhile isAsciiSpace body = body →
      rdropWhile isAsciiSpace body = body →
      fenceMarker.isPrefixOf body = false →
      callGemini (Except.ok (fenceMarker ++ (tag ++ '\n' :: (body ++ '\n' :: fenceMarker)))) =
        callGemini (Except.ok body) := by
  intro body tag htag hne h1 h2 h3
  obtain ⟨c, bs, rfl⟩ : ∃ c bs, body = c :: bs := by
    cases body with
    | nil => exact absurd rfl hne
    | cons c bs => exact ⟨c, bs, rfl⟩
  simp only [List.cons_append]
  have hc : isAsciiSpace c = false := head_false_of_dropWhile_fixed h1
  have h2r : List.dropWhile isAsciiSpace (c :: bs).reverse = (c :: bs).reverse :=
    rev_dropWhile_fixed h2
  have hlead : stripLeadFence
      (fenceMarker ++ (tag ++ '\n' :: c :: (bs ++ '\n' :: fenceMarker))) =
      c :: (bs ++ '\n' :: fenceMarker) := by
    have key : List.dropWhile isAsciiSpace ('\n' :: c :: (bs ++ '\n' :: fenceMarker)) =
        c :: (bs ++ '\n' :: fenceMarker) := by
      rw [List.dropWhile_cons_of_pos (show isAsciiSpace '\n' = true from rfl),
        List.dropWhile_cons_of_neg (by simp [hc])]
    rcases htag with rfl | rfl
    · exact key
    · exact key
  have htrail : stripTrailFence (c :: (bs ++ '\n' :: fenceMarker)) = c :: bs := by
    have hrev : (c :: (bs ++ '\n' :: fenceMarker)).reverse =
        btick :: btick :: btick :: '\n' :: (c :: bs).reverse := by
      have hsh : c :: (bs ++ '\n' :: fenceMarker) = (c :: bs) ++ '\n' :: fenceMarker := by
        simp [List.cons_append]
      rw [hsh, List.reverse_append]
      rfl
    have hfix : stripTrailFence (c :: (bs ++ '\n' :: fenceMarker)) =
        (List.dropWhile isAsciiSpace ((c :: bs)).reverse).reverse := by
      unfold stripTrailFence
      rw [hrev]
      simp [fenceMarker, List.isPrefixOf, show isAsciiSpace '\n' = true from rfl]
    rw [hfix, h2r, List.reverse_reverse]
  have hW1 : List.dropWhile isAsciiSpace
      (fenceMarker ++ (tag ++ '\n' :: c :: (bs ++ '\n' :: fenceMarker))) =
      fenceMarker ++ (tag ++ '\n' :: c :: (bs ++ '\n' :: fenceMarker)) :=
    dropWhile_cons_false _ (by rfl)
  have hW2 : rdropWhile isAsciiSpace
      (fenceMarker ++ (tag ++ '\n' :: c :: (bs ++ '\n' :: fenceMarker))) =
      fenceMarker ++ (tag ++ '\n' :: c :: (bs ++ '\n' :: fenceMarker)) := by
    have hsplit : fenceMarker ++ (tag ++ '\n' :: c :: (bs ++ '\n' :: fenceMarker)) =
        (fenceMarker ++ (tag ++ '\n' :: c :: (bs ++ ['\n', btick, btick]))) ++ [btick] := by
      simp [fenceMarker, List.append_assoc, List.cons_append]
    rw [hsplit]
    exact rdropWhile_concat_false (by rfl)
  have hpyW : pyStrip (fenceMarker ++ (tag ++ '\n' :: c :: (bs ++ '\n' :: fenceMarker))) =
      fenceMarker ++ (tag ++ '\n' :: c :: (bs ++ '\n' :: fenceMarker)) :=
    pyStrip_eq_self hW1 hW2
  have hpreW : fenceMarker.isPrefixOf
      (fenceMarker ++ (tag ++ '\n' :: c :: (bs ++ '\n' :: fenceMarker))) = true := by
    simp [fenceMarker, List.isPrefixOf]
  have hcleanW : cleanResponse
      (fenceMarker ++ (tag ++ '\n' :: c :: (bs ++ '\n' :: fenceMarker))) = c :: bs := by
    simp only [cleanResponse]
    rw [hpyW, hpreW]
    simp [hlead, htrail]
  have hcleanB : cleanResponse (c :: bs) = c :: bs := by
    simp only [cleanResponse]
    rw [pyStrip_eq_self h1 h2, h3]
    simp
  simp only [callGemini]
  rw [hcleanW, hcleanB]

/-- Witness for the amended C1: a `json`-tagged fenced object response
parses exactly as the bare object text. -/
theorem fenced_json_tag_parses_as_unwrapped_witness :
    callGemini (Except.ok (fenceMarker ++
        ("json".data ++ '\n' :: ("\x7b\x7d".data ++ '\n' :: fenceMarker)))) =
      callGemini (Except.ok "\x7b\x7d".data) :=
  fenced_json_tag_parses_as_unwrapped "\x7b\x7d".data "json".data (Or.inr rfl)
    (by decide) (by rfl) (by rfl) (by rfl)

end DseMath
